import Mathlib

set_option maxHeartbeats 1000000
set_option maxRecDepth 8000

/-!
Shallow embedding of the PAdES (ETSI.CAdES.detached) signature handler of
`model/sighandler/sighandler_pades.go` (package `sighandler` of unipdf).

Modelling conventions:
* Byte strings (`[]byte`, DER blobs, buffer contents) are `List Nat`.
* Go nil-able pointers become `Option`; Go `error` returns become
  `Except String` (error strings are modelled where the Go code builds
  them with literals, and are abstract otherwise).
* The external collaborators (`pkcs7`, `crypto/x509`, `golang.org/x/crypto/ocsp`,
  `timestamp`, `net/http`, hash functions) are modelled at their interface
  boundary as an environment `Env` of pure functions, one field per
  external call the handler makes.  The handler code itself is translated
  statement by statement.
* Go methods mutate the receiver and their pointer arguments in place;
  here every operation returns the updated state explicitly.  Because Go's
  early `return err` keeps mutations already performed, `Sign` and
  `InitSignature` return a result record that carries the final state of
  the handler and the signature record together with an optional error,
  rather than an `Except` that would drop the partial state.
-/

namespace Pades

/-- Byte strings (`[]byte` in Go) as lists of naturals; each entry stands
for one byte. -/
abbrev Bytes := List Nat

/-- The fields of an `x509.Certificate` that `sighandler_pades.go` reads:
`Raw` (DER bytes), `SerialNumber`, and the subject/issuer
`SerialNumber`/`CommonName` strings used by the validator's issuer
matching. -/
structure Certificate where
  raw : Bytes := []
  serialNumber : Int := 0
  subjectSerialNumber : String := ""
  subjectCommonName : String := ""
  issuerSerialNumber : String := ""
  issuerCommonName : String := ""
deriving DecidableEq, Repr

/-- An `rsa.PrivateKey`; the handler never inspects it, it only passes it
to the pkcs7 library, so it is abstract. -/
structure PrivateKey where
  keyId : Nat := 0
deriving DecidableEq, Repr

/-- A `core.PdfObjectStream` holding raw stream bytes (the handler only
ever builds raw-encoded streams and reads `stream.Stream` back). -/
structure PdfObjectStream where
  stream : Bytes := []
deriving DecidableEq, Repr

/-- `model.DSSCerts`: the per-signature evidence record stored as a VRI
entry. -/
structure DSSCerts where
  certs : List PdfObjectStream := []
  ocsps : List PdfObjectStream := []
  clrs : List PdfObjectStream := []
deriving DecidableEq, Repr

/-- `model.DSS`: the document security store.  In Go `DSS` embeds
`DSSCerts` (fields `Certs`, `OCSPs`, `CLRs`) and adds the `VRI` map; the
map is modelled as an association list with Go map insert/lookup
semantics (`vriInsert` / `vriLookup`). -/
structure DSS where
  certs : List PdfObjectStream := []
  ocsps : List PdfObjectStream := []
  clrs : List PdfObjectStream := []
  vri : List (String × DSSCerts) := []
deriving DecidableEq, Repr

/-- The embedded-`DSSCerts` view of a DSS (what Go reads as
`a.dss.DSSCerts` at the end of `Sign`). -/
def DSS.dssCerts (d : DSS) : DSSCerts :=
  { certs := d.certs, ocsps := d.ocsps, clrs := d.clrs }

/-- The fields of `model.PdfSignature` this handler touches: `Filter`,
`SubFilter` (nil-able PDF names), `Contents` (a hex string whose byte
content the handler writes with `core.MakeHexString(string(data))` and
reads back with `.Bytes()`; modelled directly as the bytes) and
`Reference` (cleared by `InitSignature`). -/
structure PdfSignature where
  filter : Option String := none
  subFilter : Option String := none
  contents : Bytes := []
  reference : Option Bytes := none
deriving DecidableEq, Repr

/-- The part of `model.PdfReader` consumed by `ValidateEx`: its nil-able
DSS. -/
structure PdfReader where
  dss : Option DSS := none
deriving DecidableEq, Repr

/-- Opaque handle for a `pkcs7.SignedData` under construction; the CMS
library is external (out of scope per the spec), so the handler's calls
into it are environment functions over this handle. -/
structure SignedData where
  handle : Nat := 0
deriving DecidableEq, Repr

/-- Result of `pkcs7.Parse`: the handler only uses `GetOnlySigner()` (the
single signer certificate; the nil-signer case, which would make the Go
code dereference nil, is not modelled) and passes the structure to
`Verify` after attaching the detached content. -/
structure P7 where
  onlySigner : Certificate := {}
deriving DecidableEq, Repr

/-- One entry of `clr.TBSCertList.RevokedCertificates`; the handler reads
only the serial number. -/
structure RevokedCertificate where
  serialNumber : Int := 0
deriving DecidableEq, Repr

/-- Result of `x509.ParseCRL`: the handler only iterates
`TBSCertList.RevokedCertificates`. -/
structure CRL where
  revokedCertificates : List RevokedCertificate := []
deriving DecidableEq, Repr

/-- `model.SignatureValidationResult` (the fields `ValidateEx` sets). -/
structure SignatureValidationResult where
  isSigned : Bool := false
  isVerified : Bool := false
  isVRIFound : Bool := false
  isOCSPsFound : Bool := false
  isVerifiedByOCSPs : Bool := false
  isCLRsFound : Bool := false
  isVerifiedByCLRs : Bool := false
  errors : List String := []
deriving DecidableEq, Repr

/-- The handler state `etsiPAdES`.  Go's `dss *model.DSS` pointer is
modelled as an `Option DSS` value; the pointer sharing between the
original handler and the copy stored into `sig.Handler` (both point at
the DSS allocated by `InitSignature`) is noted where it matters. -/
structure EtsiPAdES where
  privateKey : Option PrivateKey := none
  certificate : Option Certificate := none
  emptySignature : Bool := false
  isInitializing : Bool := false
  dss : Option DSS := none
  caCert : Option Certificate := none
  crlDistributionPoints : List String := []
  ocspServers : List String := []
  timestampServerURL : String := ""
deriving DecidableEq, Repr

/-- The document-timestamp handler produced by `NewDocTimeStamp` for the
LTA level (its internals live outside the excerpt). -/
structure DocTimeStamp where
  timestampServerURL : String := ""
  hashAlgorithm : Nat := 0
deriving DecidableEq, Repr

/-- Go's `crypto.SHA512` constant. -/
def cryptoSHA512 : Nat := 7

/-- Go map lookup `m[k]` on the VRI association list. -/
def vriLookup (m : List (String × DSSCerts)) (k : String) : Option DSSCerts :=
  match m with
  | [] => none
  | (k', v) :: rest => if k' = k then some v else vriLookup rest k

/-- Go map assignment `m[k] = v` on the VRI association list. -/
def vriInsert (m : List (String × DSSCerts)) (k : String) (v : DSSCerts) :
    List (String × DSSCerts) :=
  match m with
  | [] => [(k, v)]
  | (k', v') :: rest =>
    if k' = k then (k, v) :: rest else (k', v') :: vriInsert rest k v

/-- One hex digit, lowercase, as produced by Go's `hex.EncodeToString`. -/
def hexDigit (n : Nat) : Char :=
  if n < 10 then Char.ofNat (48 + n) else Char.ofNat (87 + n)

/-- The character list of `hex.EncodeToString`: high nibble then low
nibble of every byte. -/
def hexEncodeChars : Bytes → List Char
  | [] => []
  | b :: rest => hexDigit (b / 16 % 16) :: hexDigit (b % 16) :: hexEncodeChars rest

/-- Go `hex.EncodeToString`. -/
def hexEncodeToString (bs : Bytes) : String :=
  String.mk (hexEncodeChars bs)

/-- Go `strings.ToUpper` (ASCII input here: hex digits only), mapping
`Char.toUpper` over the string's characters. -/
def stringsToUpper (s : String) : String :=
  String.mk (s.data.map Char.toUpper)

/-- The environment of external library calls the handler makes; one
field per call site, with the exact argument data the Go code passes.
All functions are pure: the same call always returns the same answer
within one signing/validation scenario. -/
structure Env where
  /-- `sha1.New()/h.Write(b)/h.Sum(nil)` (also `crypto.SHA1.New()`). -/
  sha1 : Bytes → Bytes
  /-- `crypto.SHA512.New()/h.Write(b)/h.Sum(nil)` in `makeTimestampRequest`. -/
  sha512 : Bytes → Bytes
  /-- `pkcs7.NewSignedData(content)`. -/
  newSignedData : Bytes → Except String SignedData
  /-- `signedData.AddSignerChain(cert, privateKey, chain, config)`; the last
  argument is the SHA-1 certificate hash carried by the ESS
  signing-certificate attribute the config holds. -/
  addSignerChain : SignedData → Certificate → PrivateKey → List Certificate →
    Bytes → Except String SignedData
  /-- `signedData.Detach()`. -/
  detach : SignedData → SignedData
  /-- the loop over `SignerInfos[0].AuthenticatedAttributes` selecting the
  message-digest attribute, defaulting to `EncryptedDigest`. -/
  getMessageDigest : SignedData → Bytes
  /-- `SignerInfos[0].SetUnauthenticatedAttributes([...tsInfo...])`. -/
  setUnauthenticatedAttributes : SignedData → Bytes → Except String SignedData
  /-- `signedData.Finish()`: the DER-encoded detached CMS signature. -/
  finish : SignedData → Except String Bytes
  /-- `timestamp.Request{...HashedMessage: s...}.Marshal()`. -/
  tsMarshalRequest : Bytes → Except String Bytes
  /-- `http.Post(server, "application/timestamp-query", data)` followed by
  `ioutil.ReadAll`: status code and body (transport and read failures are
  the error case). -/
  httpPostTimestamp : String → Bytes → Except String (Nat × Bytes)
  /-- `asn1.Unmarshal(body, &ci)` returning `ci.Content` bytes. -/
  asn1UnmarshalContentInfo : Bytes → Except String Bytes
  /-- `http.Get(server)` followed by `ioutil.ReadAll` (no status check in
  `makeCRLRequest`). -/
  httpGet : String → Except String Bytes
  /-- `ocsp.CreateRequest(cert, caCert, &ocsp.RequestOptions{Hash: crypto.SHA1})`. -/
  ocspCreateRequest : Option Certificate → Option Certificate → Except String Bytes
  /-- `http.Post(server, "application/ocsp-request", data)` followed by
  `ioutil.ReadAll` (whose own error Go discards). -/
  httpPostOCSP : String → Bytes → Except String Bytes
  /-- `ocsp.ParseResponseForCert(data, cert, issuer)` (result value unused). -/
  ocspParseResponseForCert : Bytes → Option Certificate → Option Certificate →
    Except String Unit
  /-- `core.MakeStream(data, core.NewRawEncoder())`. -/
  makeStream : Bytes → Except String PdfObjectStream
  /-- `pkcs7.Parse(signed)`. -/
  pkcs7Parse : Bytes → Except String P7
  /-- `x509.ParseCertificate(stream.Stream)`. -/
  x509ParseCertificate : Bytes → Except String Certificate
  /-- `x509.ParseCRL(stream.Stream)`. -/
  x509ParseCRL : Bytes → Except String CRL
  /-- `p7.Verify()` after `p7.Content` was set to the digest bytes. -/
  p7Verify : P7 → Bytes → Except String Unit

/-- The uppercase hex SHA-1 fingerprint computed identically at
`Sign` (lines 451-453) and `ValidateEx` (lines 490-492). -/
def fingerprint (env : Env) (bs : Bytes) : String :=
  stringsToUpper (hexEncodeToString (env.sha1 bs))

/-- The probe payload `InitSignature` writes into the sizing digest:
`[]byte("calculate the Contents field size")` (ASCII, so the UTF-8 bytes
are the character codes). -/
def probePayload : Bytes :=
  "calculate the Contents field size".toList.map Char.toNat

/-- `etsiPAdES.makeCRLRequest` (lines 268-275): HTTP GET of one CRL
distribution point, full body returned, status code not inspected. -/
def makeCRLRequest (env : Env) (server : String) : Except String Bytes :=
  env.httpGet server

/-- The loop body of `etsiPAdES.makeCRLRequests` (lines 277-291) over the
remaining distribution points; the first failing fetch or stream
construction aborts the whole collection. -/
def makeCRLRequestsLoop (env : Env) : List String → Except String (List PdfObjectStream)
  | [] => Except.ok []
  | server :: rest =>
    match makeCRLRequest env server with
    | .error e => .error e
    | .ok data =>
      match env.makeStream data with
      | .error e => .error e
      | .ok s =>
        match makeCRLRequestsLoop env rest with
        | .error e => .error e
        | .ok others => .ok (s :: others)

/-- `etsiPAdES.makeCRLRequests` (lines 277-291). -/
def makeCRLRequests (env : Env) (a : EtsiPAdES) : Except String (List PdfObjectStream) :=
  makeCRLRequestsLoop env a.crlDistributionPoints

/-- `etsiPAdES.makeOCSPRequest` (lines 293-309): build the OCSP request,
POST it, then parse the response against `(nil, caCert)` to confirm it
decodes before accepting the raw bytes. -/
def makeOCSPRequest (env : Env) (server : String) (cert caCert : Option Certificate) :
    Except String Bytes :=
  match env.ocspCreateRequest cert caCert with
  | .error e => .error e
  | .ok reqData =>
    match env.httpPostOCSP server reqData with
    | .error e => .error e
    | .ok data =>
      match env.ocspParseResponseForCert data none caCert with
      | .error e => .error e
      | .ok _ => .ok data

/-- The loop of `etsiPAdES.makeOCSPRequests` (lines 311-328) over the
configured OCSP servers. -/
def makeOCSPRequestsLoop (env : Env) (cert caCert : Option Certificate) :
    List String → Except String (List PdfObjectStream)
  | [] => Except.ok []
  | server :: rest =>
    match makeOCSPRequest env server cert caCert with
    | .error e => .error e
    | .ok data =>
      match env.makeStream data with
      | .error e => .error e
      | .ok s =>
        match makeOCSPRequestsLoop env cert caCert rest with
        | .error e => .error e
        | .ok others => .ok (s :: others)

/-- `etsiPAdES.makeOCSPRequests` (lines 311-328): a nil CA certificate
short-circuits to an empty (nil) result without error. -/
def makeOCSPRequests (env : Env) (a : EtsiPAdES) : Except String (List PdfObjectStream) :=
  match a.caCert with
  | none => .ok []
  | some _ => makeOCSPRequestsLoop env a.certificate a.caCert a.ocspServers

/-- `etsiPAdES.makeTimestampRequest` (lines 330-372): SHA-512 the
encrypted digest, marshal an RFC3161 request, POST it, reject non-200
status with the literal Go error message, and unmarshal the content-info
wrapper, returning its `Content`. -/
def makeTimestampRequest (env : Env) (server : String) (encryptedDigest : Bytes) :
    Except String Bytes :=
  let s := env.sha512 encryptedDigest
  match env.tsMarshalRequest s with
  | .error e => .error e
  | .ok data =>
    match env.httpPostTimestamp server data with
    | .error e => .error e
    | .ok (statusCode, body) =>
      if statusCode ≠ 200 then
        .error ("http status code not ok (got " ++ toString statusCode ++ ")")
      else
        env.asn1UnmarshalContentInfo body

/-- The CMS-building prefix of `etsiPAdES.Sign` (lines 377-440): build
the SignedData over the digest buffer's bytes, attach the ESS
signing-certificate attribute (SHA-1 of the leaf certificate's raw DER),
add the signer chain (the CA certificate when present), detach, embed a
timestamp token as an unauthenticated attribute when a timestamp server
is configured, and `Finish()` to the DER signature bytes. -/
def buildDetachedSignature (env : Env) (a : EtsiPAdES) (cert : Certificate)
    (key : PrivateKey) (digest : Bytes) : Except String Bytes :=
  match env.newSignedData digest with
  | .error e => .error e
  | .ok signedData =>
    let signingCertificateHash := env.sha1 cert.raw
    let chain : List Certificate := match a.caCert with | some ca => [ca] | none => []
    match env.addSignerChain signedData cert key chain signingCertificateHash with
    | .error e => .error e
    | .ok signedData =>
      let signedData := env.detach signedData
      let withTs : Except String SignedData :=
        if a.timestampServerURL.length > 0 then
          let mDigest := env.getMessageDigest signedData
          match makeTimestampRequest env a.timestampServerURL mDigest with
          | .error e => .error e
          | .ok tsInfo => env.setUnauthenticatedAttributes signedData tsInfo
        else .ok signedData
      match withTs with
      | .error e => .error e
      | .ok signedData => env.finish signedData

/-- The outcome of a `Sign` call: the handler and signature record as Go
leaves them (mutations before an early `return err` persist) plus the
returned error, `none` meaning success. -/
structure SignResult where
  handler : EtsiPAdES
  sig : PdfSignature
  err : Option String
deriving DecidableEq, Repr

/-- The DSS-population suffix of a non-dry-run `etsiPAdES.Sign`
(lines 451-473): fingerprint the padded contents, append the leaf
certificate stream to `dss.Certs`, then fetch OCSP responses (assigned to
`dss.OCSPs`), then CRLs (assigned to `dss.CLRs`), and finally store the
VRI entry for the fingerprint.  Note the certificate append happens
before the network fetches, so it survives their failure.  In Go only the
pointed-to DSS mutates; the receiver's configuration fields stay fixed,
so the fetch helpers are called on the unchanged handler `a` and the DSS
updates are threaded separately into the returned handler state.  Go
would panic on a nil DSS at the append, modelled as an error outcome. -/
def signDSS (env : Env) (a : EtsiPAdES) (sig : PdfSignature) (cert : Certificate)
    (data : Bytes) : SignResult :=
  let key := fingerprint env data
  match env.makeStream cert.raw with
  | .error e => ⟨a, sig, some e⟩
  | .ok stream =>
    match a.dss with
    | none => ⟨a, sig, some "runtime panic: nil DSS"⟩
    | some dss =>
      let dss1 := { dss with certs := dss.certs ++ [stream] }
      match makeOCSPRequests env a with
      | .error e => ⟨{ a with dss := some dss1 }, sig, some e⟩
      | .ok ocsps =>
        let dss2 := { dss1 with ocsps := ocsps }
        match makeCRLRequests env a with
        | .error e => ⟨{ a with dss := some dss2 }, sig, some e⟩
        | .ok clrs =>
          let dss3 := { dss2 with clrs := clrs }
          let dss4 := { dss3 with vri := vriInsert dss3.vri key dss3.dssCerts }
          ⟨{ a with dss := some dss4 }, sig, none⟩

/-- `etsiPAdES.Sign` (lines 374-474).  Go dereferences
`a.certificate.Raw` (and hands `a.privateKey` to the pkcs7 library);
a nil certificate or key would panic, modelled as an error outcome.
After the DER bytes are obtained, `data` is a fresh buffer of their
length plus `1024*2` zero bytes and becomes the new `Contents`; the
dry-run (`isInitializing`) stops there, the real pass populates the
DSS. -/
def Sign (env : Env) (a : EtsiPAdES) (sig : PdfSignature) (digest : Bytes) : SignResult :=
  match a.certificate, a.privateKey with
  | some cert, some key =>
    match buildDetachedSignature env a cert key digest with
    | .error e => ⟨a, sig, some e⟩
    | .ok detachedSignature =>
      let data := detachedSignature ++ List.replicate (1024 * 2) 0
      let sig1 := { sig with contents := data }
      if a.isInitializing then ⟨a, sig1, none⟩
      else signDSS env a sig1 cert data
  | _, _ => ⟨a, sig, some "runtime panic: nil certificate or private key"⟩

/-- The outcome of `InitSignature`: the original handler (whose `dss`
field Go re-points at a fresh DSS), the handler copy stored into
`sig.Handler` (after the dry-run `Sign` ran on it and its
`isInitializing` flag was reset), the signature record, and the returned
error. -/
structure InitResult where
  a : EtsiPAdES
  handler : EtsiPAdES
  sig : PdfSignature
  err : Option String
deriving DecidableEq, Repr

/-- `etsiPAdES.InitSignature` (lines 236-266): check certificate and key
for non-empty handlers, allocate a fresh DSS with an empty VRI map, copy
the handler into the signature record, set `Filter`/`SubFilter`, clear
`Reference`, then run a dry-run `Sign` over a digest holding only the
probe payload (`NewDigest` returns an empty buffer and buffer writes
cannot fail).  On the early error exits no handler copy is stored; the
result then carries the unchanged handler in both positions. -/
def InitSignature (env : Env) (a : EtsiPAdES) (sig : PdfSignature) : InitResult :=
  if !a.emptySignature && a.certificate.isNone then
    ⟨a, a, sig, some "certificate must not be nil"⟩
  else if !a.emptySignature && a.privateKey.isNone then
    ⟨a, a, sig, some "privateKey must not be nil"⟩
  else
    let a1 := { a with dss := some { certs := [], ocsps := [], clrs := [], vri := [] } }
    let sig1 := { sig with
      filter := some "Adobe.PPKLite"
      subFilter := some "ETSI.CAdES.detached"
      reference := none }
    let handler := { a1 with isInitializing := true }
    let r := Sign env handler sig1 probePayload
    ⟨a1, { r.handler with isInitializing := false }, r.sig, r.err⟩

/-- The VRI lookup at the head of `ValidateEx` (lines 488-498): only a
non-nil reader with a non-nil DSS is consulted, keyed by the fingerprint
of the signature's `Contents` bytes. -/
def vriOf (env : Env) (sig : PdfSignature) (r : Option PdfReader) : Option DSSCerts :=
  match r with
  | none => none
  | some rd =>
    match rd.dss with
    | none => none
    | some d => vriLookup d.vri (fingerprint env sig.contents)

/-- The certificate-parsing loop of `ValidateEx` (lines 505-513): any
parse failure is returned from `ValidateEx` as a hard error. -/
def parseCerts (env : Env) : List PdfObjectStream → Except String (List Certificate)
  | [] => Except.ok []
  | stream :: rest =>
    match env.x509ParseCertificate stream.stream with
    | .error e => .error e
    | .ok cert =>
      match parseCerts env rest with
      | .error e => .error e
      | .ok certs => .ok (cert :: certs)

/-- The issuer-identification loop of `ValidateEx` (lines 516-523): scan
the VRI certificates for a subject serial-number/common-name match
against the signer's issuer fields; a later match overwrites an earlier
one. -/
def findIssuerLoop (signer : Certificate) :
    List Certificate → Option Certificate → Option Certificate
  | [], issuer => issuer
  | cert :: rest, issuer =>
    let issuer := if cert.subjectSerialNumber = signer.issuerSerialNumber ∧
        cert.subjectCommonName = signer.issuerCommonName then some cert else issuer
    findIssuerLoop signer rest issuer

/-- `issuer` as computed by `ValidateEx` from the VRI certificates. -/
def findIssuer (certs : List Certificate) (signer : Certificate) : Option Certificate :=
  findIssuerLoop signer certs none

/-- The OCSP loop of `ValidateEx` (lines 539-548), carried state being
`(IsVerifiedByOCSPs, Errors)`: the flag is forced true when the index is
0, and every parse failure appends its error and clears the flag. -/
def ocspLoopAux (env : Env) (signer : Certificate) (issuer : Option Certificate) :
    List PdfObjectStream → Nat → Bool → List String → Bool × List String
  | [], _, flag, errs => (flag, errs)
  | stream :: rest, i, flag, errs =>
    let flag := if i = 0 then true else flag
    match env.ocspParseResponseForCert stream.stream (some signer) issuer with
    | .error e => ocspLoopAux env signer issuer rest (i + 1) false (errs ++ [e])
    | .ok _ => ocspLoopAux env signer issuer rest (i + 1) flag errs

/-- The OCSP loop started the way `ValidateEx` starts it (index 0, flag
initially false, no errors yet). -/
def ocspLoop (env : Env) (signer : Certificate) (issuer : Option Certificate)
    (l : List PdfObjectStream) : Bool × List String :=
  ocspLoopAux env signer issuer l 0 false []

/-- The Go error message `fmt.Sprintf("Certificate with SerialNumber %s
is revoked", signer.SerialNumber.String())`; note both revocation
branches print the signer's serial number. -/
def revokedMessage (sn : Int) : String :=
  "Certificate with SerialNumber " ++ toString sn ++ " is revoked"

/-- The inner loop over the VRI certificates for one revoked-certificate
entry (lines 565-570). -/
def revokedScanCerts (signer : Certificate) (rc : RevokedCertificate) :
    List Certificate → Bool → List String → Bool × List String
  | [], flag, errs => (flag, errs)
  | cert :: rest, flag, errs =>
    if rc.serialNumber = cert.serialNumber then
      revokedScanCerts signer rc rest false (errs ++ [revokedMessage signer.serialNumber])
    else
      revokedScanCerts signer rc rest flag errs

/-- The loop over one parsed CRL's revoked certificates (lines 560-571):
a serial matching the signer appends a revocation message and clears the
flag, then the VRI certificates are scanned for the same serial. -/
def revokedScan (signer : Certificate) (vriCerts : List Certificate) :
    List RevokedCertificate → Bool → List String → Bool × List String
  | [], flag, errs => (flag, errs)
  | rc :: rest, flag, errs =>
    let fe := if rc.serialNumber = signer.serialNumber then
        (false, errs ++ [revokedMessage signer.serialNumber])
      else (flag, errs)
    let fe1 := revokedScanCerts signer rc vriCerts fe.1 fe.2
    revokedScan signer vriCerts rest fe1.1 fe1.2

/-- The CRL loop of `ValidateEx` (lines 549-572), carried state being
`(IsVerifiedByCLRs, Errors)`: flag forced true at index 0, parse
failures append their error, clear the flag and `continue`, parsed CRLs
are scanned for revoked serials. -/
def crlLoopAux (env : Env) (signer : Certificate) (vriCerts : List Certificate) :
    List PdfObjectStream → Nat → Bool → List String → Bool × List String
  | [], _, flag, errs => (flag, errs)
  | stream :: rest, i, flag, errs =>
    let flag := if i = 0 then true else flag
    match env.x509ParseCRL stream.stream with
    | .error e => crlLoopAux env signer vriCerts rest (i + 1) false (errs ++ [e])
    | .ok clr =>
      let fe := revokedScan signer vriCerts clr.revokedCertificates flag errs
      crlLoopAux env signer vriCerts rest (i + 1) fe.1 fe.2

/-- The CRL loop started the way `ValidateEx` starts it. -/
def crlLoop (env : Env) (signer : Certificate) (vriCerts : List Certificate)
    (l : List PdfObjectStream) : Bool × List String :=
  crlLoopAux env signer vriCerts l 0 false []

/-- `etsiPAdES.ValidateEx` (lines 487-576).  Hard-error exits: CMS parse
failure, a VRI certificate stream that fails X.509 parsing, and
signature verification failure.  Everything after that accumulates into
the result record: OCSP loop first, then CRL loop, errors appended in
that order. -/
def ValidateEx (env : Env) (a : EtsiPAdES) (sig : PdfSignature) (digest : Bytes)
    (r : Option PdfReader) : Except String SignatureValidationResult :=
  let signed := sig.contents
  let vri := vriOf env sig r
  match env.pkcs7Parse signed with
  | .error e => .error e
  | .ok p7 =>
    match (match vri with
      | some v => parseCerts env v.certs
      | none => Except.ok []) with
    | .error e => .error e
    | .ok vriCertificates =>
      let signer := p7.onlySigner
      let issuer := findIssuer vriCertificates signer
      match env.p7Verify p7 digest with
      | .error e => .error e
      | .ok _ =>
        let result : SignatureValidationResult :=
          { isSigned := true, isVerified := true, isVRIFound := vri.isSome }
        match vri with
        | none => .ok result
        | some v =>
          let o := ocspLoop env signer issuer v.ocsps
          let c := crlLoop env signer vriCertificates v.clrs
          .ok { result with
                isOCSPsFound := decide (0 < v.ocsps.length)
                isVerifiedByOCSPs := o.1
                isCLRsFound := decide (0 < v.clrs.length)
                isVerifiedByCLRs := c.1
                errors := o.2 ++ c.2 }

/-- `etsiPAdES.Validate` (lines 482-484): delegate to `ValidateEx` with a
nil reader. -/
def Validate (env : Env) (a : EtsiPAdES) (sig : PdfSignature) (digest : Bytes) :
    Except String SignatureValidationResult :=
  ValidateEx env a sig digest none

/-- `etsiPAdES.IsApplicable` (lines 579-584): nil signature or nil
`Filter`/`SubFilter` are not applicable; otherwise exact string match. -/
def IsApplicable (sig : Option PdfSignature) : Bool :=
  match sig with
  | none => false
  | some s =>
    match s.filter, s.subFilter with
    | some f, some sf => f = "Adobe.PPKLite" && sf = "ETSI.CAdES.detached"
    | _, _ => false

/-- `PAdESLevelB` (lines 31-35), field names as in Go. -/
structure PAdESLevelB where
  privateKey : Option PrivateKey := none
  certificate : Option Certificate := none
  caCert : Option Certificate := none
deriving DecidableEq, Repr

/-- `PAdESLevelB.New` (lines 39-54). -/
def PAdESLevelB.New (p : PAdESLevelB) : Except String EtsiPAdES :=
  if p.privateKey.isNone then .error "field PrivateKey is required"
  else if p.certificate.isNone then .error "field Certificate is required"
  else if p.caCert.isNone then .error "field CaCert is required"
  else .ok { certificate := p.certificate, privateKey := p.privateKey, caCert := p.caCert }

/-- `PAdESLevelT` (lines 58-63). -/
structure PAdESLevelT where
  privateKey : Option PrivateKey := none
  certificate : Option Certificate := none
  caCert : Option Certificate := none
  certificateTimestampServerURL : String := ""
deriving DecidableEq, Repr

/-- `PAdESLevelT.New` (lines 67-86). -/
def PAdESLevelT.New (p : PAdESLevelT) : Except String EtsiPAdES :=
  if p.privateKey.isNone then .error "field PrivateKey is required"
  else if p.certificate.isNone then .error "field Certificate is required"
  else if p.caCert.isNone then .error "field CaCert is required"
  else if p.certificateTimestampServerURL = "" then
    .error "field CertificateTimestampServerURL is required"
  else .ok { certificate := p.certificate, privateKey := p.privateKey,
             caCert := p.caCert, timestampServerURL := p.certificateTimestampServerURL }

/-- `PAdESLevelLT` (lines 90-97); the Go field name `CLRDistributionPoints`
(sic) is kept. -/
structure PAdESLevelLT where
  privateKey : Option PrivateKey := none
  certificate : Option Certificate := none
  caCert : Option Certificate := none
  certificateTimestampServerURL : String := ""
  clrDistributionPoints : List String := []
  ocspServers : List String := []
deriving DecidableEq, Repr

/-- `PAdESLevelLT.New` (lines 101-128). -/
def PAdESLevelLT.New (p : PAdESLevelLT) : Except String EtsiPAdES :=
  if p.privateKey.isNone then .error "field PrivateKey is required"
  else if p.certificate.isNone then .error "field Certificate is required"
  else if p.caCert.isNone then .error "field CaCert is required"
  else if p.certificateTimestampServerURL = "" then
    .error "field CertificateTimestampServerURL is required"
  else if p.clrDistributionPoints.length = 0 then
    .error "field CLRDistributionPoints is required"
  else if p.ocspServers.length = 0 then
    .error "field OCSPServers is required"
  else .ok { privateKey := p.privateKey, certificate := p.certificate,
             caCert := p.caCert, crlDistributionPoints := p.clrDistributionPoints,
             ocspServers := p.ocspServers,
             timestampServerURL := p.certificateTimestampServerURL }

/-- `PAdESLevelLTA` (lines 132-140). -/
structure PAdESLevelLTA where
  privateKey : Option PrivateKey := none
  certificate : Option Certificate := none
  caCert : Option Certificate := none
  certificateTimestampServerURL : String := ""
  clrDistributionPoints : List String := []
  ocspServers : List String := []
  timestampServerURL : String := ""
deriving DecidableEq, Repr

/-- Modelled from the spec: `NewDocTimeStamp` is defined elsewhere in the
`sighandler` package (not part of the provided sources).  Per spec §4.2 a
level builder's output "is always a fully-formed Handler plus (for LTA
only) a second, independent document-timestamp handler", so constructing
the document-timestamp handler from its URL and hash algorithm always
succeeds. -/
def NewDocTimeStamp (url : String) (hashAlgorithm : Nat) : Except String DocTimeStamp :=
  .ok { timestampServerURL := url, hashAlgorithm := hashAlgorithm }

/-- `PAdESLevelLTA.New` (lines 144-178): the same checks as LT plus the
document-timestamp URL, then the second handler is built with
`NewDocTimeStamp(p.TimestampServerURL, crypto.SHA512)`. -/
def PAdESLevelLTA.New (p : PAdESLevelLTA) : Except String (EtsiPAdES × DocTimeStamp) :=
  if p.privateKey.isNone then .error "field PrivateKey is required"
  else if p.certificate.isNone then .error "field Certificate is required"
  else if p.caCert.isNone then .error "field CaCert is required"
  else if p.certificateTimestampServerURL = "" then
    .error "field CertificateTimestampServerURL is required"
  else if p.clrDistributionPoints.length = 0 then
    .error "field CLRDistributionPoints is required"
  else if p.ocspServers.length = 0 then
    .error "field OCSPServers is required"
  else if p.timestampServerURL = "" then
    .error "field TimestampServerURL is required"
  else
    match NewDocTimeStamp p.timestampServerURL cryptoSHA512 with
    | .error e => .error e
    | .ok handler =>
      .ok ({ privateKey := p.privateKey, certificate := p.certificate,
             caCert := p.caCert, crlDistributionPoints := p.clrDistributionPoints,
             ocspServers := p.ocspServers,
             timestampServerURL := p.certificateTimestampServerURL }, handler)

/-- `NewEmptyPAdES` (lines 204-208). -/
def NewEmptyPAdES : Except String EtsiPAdES :=
  .ok { emptySignature := true }

/-- The builders' error text for a missing field named `f`. -/
def requiredFieldErr (f : String) : String :=
  "field " ++ f ++ " is required"

/-- Spec-side description (§4.2) of the first missing required field of a
level-B configuration, in the spec's order: private key, certificate, CA
certificate. -/
def firstMissingB (p : PAdESLevelB) : Option String :=
  if p.privateKey.isNone then some "PrivateKey"
  else if p.certificate.isNone then some "Certificate"
  else if p.caCert.isNone then some "CaCert"
  else none

/-- Spec-side first missing field for level T: level-B fields, then the
timestamp-server URL. -/
def firstMissingT (p : PAdESLevelT) : Option String :=
  if p.privateKey.isNone then some "PrivateKey"
  else if p.certificate.isNone then some "Certificate"
  else if p.caCert.isNone then some "CaCert"
  else if p.certificateTimestampServerURL = "" then some "CertificateTimestampServerURL"
  else none

/-- Spec-side first missing field for level LT: level-T fields, then at
least one CRL distribution point and at least one OCSP server. -/
def firstMissingLT (p : PAdESLevelLT) : Option String :=
  if p.privateKey.isNone then some "PrivateKey"
  else if p.certificate.isNone then some "Certificate"
  else if p.caCert.isNone then some "CaCert"
  else if p.certificateTimestampServerURL = "" then some "CertificateTimestampServerURL"
  else if p.clrDistributionPoints.length = 0 then some "CLRDistributionPoints"
  else if p.ocspServers.length = 0 then some "OCSPServers"
  else none

/-- Spec-side first missing field for level LTA: level-LT fields, then
the document-timestamp URL. -/
def firstMissingLTA (p : PAdESLevelLTA) : Option String :=
  if p.privateKey.isNone then some "PrivateKey"
  else if p.certificate.isNone then some "Certificate"
  else if p.caCert.isNone then some "CaCert"
  else if p.certificateTimestampServerURL = "" then some "CertificateTimestampServerURL"
  else if p.clrDistributionPoints.length = 0 then some "CLRDistributionPoints"
  else if p.ocspServers.length = 0 then some "OCSPServers"
  else if p.timestampServerURL = "" then some "TimestampServerURL"
  else none

/-! Concrete sample data used to exercise the model on closed inputs. -/

deriving instance DecidableEq for Except

/-- A sample leaf certificate. -/
def certW : Certificate :=
  { raw := [1, 2, 3], serialNumber := 11,
    subjectSerialNumber := "s1", subjectCommonName := "n1",
    issuerSerialNumber := "s0", issuerCommonName := "n0" }

/-- A sample CA certificate whose subject matches `certW`'s issuer. -/
def caW : Certificate :=
  { raw := [4, 5], serialNumber := 12,
    subjectSerialNumber := "s0", subjectCommonName := "n0" }

/-- A sample private key. -/
def keyW : PrivateKey := { keyId := 1 }

/-- A benign environment in which every external call succeeds on small
data: hashes are one byte long, the DER signature is one byte long, and
all parses succeed. -/
def baseEnv : Env where
  sha1 := fun bs => [bs.length % 256]
  sha512 := fun _ => [2]
  newSignedData := fun c => .ok { handle := c.length }
  addSignerChain := fun sd _ _ _ _ => .ok sd
  detach := fun sd => sd
  getMessageDigest := fun _ => []
  setUnauthenticatedAttributes := fun sd _ => .ok sd
  finish := fun sd => .ok [sd.handle % 256]
  tsMarshalRequest := fun _ => .ok []
  httpPostTimestamp := fun _ _ => .ok (200, [])
  asn1UnmarshalContentInfo := fun _ => .ok []
  httpGet := fun _ => .ok [5]
  ocspCreateRequest := fun _ _ => .ok []
  httpPostOCSP := fun _ _ => .ok [6]
  ocspParseResponseForCert := fun _ _ _ => .ok ()
  makeStream := fun bs => .ok { stream := bs }
  pkcs7Parse := fun _ => .ok { onlySigner := certW }
  x509ParseCertificate := fun _ => .ok caW
  x509ParseCRL := fun _ => .ok { revokedCertificates := [] }
  p7Verify := fun _ _ => .ok ()

/-- A level-B style handler configuration (no CA, no servers). -/
def aW : EtsiPAdES := { privateKey := some keyW, certificate := some certW }

/-- A handler mid real-signing pass: DSS allocated, not initializing. -/
def aRealW : EtsiPAdES :=
  { privateKey := some keyW, certificate := some certW,
    dss := some { certs := [], ocsps := [], clrs := [], vri := [] } }

/-- Environment for the C1 counterexample: the dry-run DER (over the
33-byte probe payload) is 1 byte, the real DER (over any other content)
is 2050 bytes, which exceeds the placeholder size `1 + 2048` fixed by
`InitSignature`. -/
def envC1 : Env :=
  { baseEnv with
    finish := fun sd => .ok (List.replicate (if sd.handle = 33 then 1 else 2050) 7) }

/-- Environment for the C2 counterexample: the OCSP server is down. -/
def envC2 : Env :=
  { baseEnv with httpPostOCSP := fun _ _ => .error "Post ocsp: connection refused" }

/-- A real-signing LT-style handler with one OCSP server configured. -/
def aC2 : EtsiPAdES :=
  { privateKey := some keyW, certificate := some certW, caCert := some caW,
    ocspServers := ["http://ocsp.example"],
    dss := some { certs := [], ocsps := [], clrs := [], vri := [] } }

/-- Environment for C4: the OCSP response blob `[9]` fails to parse, any
other blob parses fine. -/
def envC4 : Env :=
  { baseEnv with
    ocspParseResponseForCert := fun bs _ _ =>
      if bs = [9] then .error "ocsp: response parse failure" else .ok () }

/-- A signature record carrying already-written contents bytes. -/
def sigW : PdfSignature := { contents := [1, 2, 3] }

/-- VRI entry for C4: two OCSP responses, the second one malformed. -/
def vriC4 : DSSCerts := { ocsps := [{ stream := [8] }, { stream := [9] }] }

/-- Reader whose DSS carries `vriC4` under `sigW`'s fingerprint. -/
def readerC4 : PdfReader :=
  { dss := some { vri := [(fingerprint envC4 sigW.contents, vriC4)] } }

/-- Environment for C5: the CRL blob `[5]` lists serial number 11 (the
serial of `certW`) as revoked. -/
def envC5 : Env :=
  { baseEnv with
    x509ParseCRL := fun bs =>
      .ok { revokedCertificates := if bs = [5] then [{ serialNumber := 11 }] else [] } }

/-- VRI entry for C5: one CRL blob. -/
def vriC5 : DSSCerts := { clrs := [{ stream := [5] }] }

/-- Reader whose DSS carries `vriC5` under `sigW`'s fingerprint. -/
def readerC5 : PdfReader :=
  { dss := some { vri := [(fingerprint envC5 sigW.contents, vriC5)] } }

/-- Environment for the C6 counterexample: the VRI certificate blob
`[13]` fails X.509 parsing while CMS decoding and signature verification
both succeed. -/
def envC6 : Env :=
  { baseEnv with
    x509ParseCertificate := fun bs =>
      if bs = [13] then .error "x509: malformed certificate" else .ok caW }

/-- VRI entry for C6: one malformed certificate blob. -/
def vriC6 : DSSCerts := { certs := [{ stream := [13] }] }

/-- Reader whose DSS carries `vriC6` under `sigW`'s fingerprint. -/
def readerC6 : PdfReader :=
  { dss := some { vri := [(fingerprint envC6 sigW.contents, vriC6)] } }

/-- Whether one OCSP evidence stream parses for the given signer/issuer
pair (the test inside `ValidateEx`'s OCSP loop). -/
def ocspOk (env : Env) (signer : Certificate) (issuer : Option Certificate)
    (s : PdfObjectStream) : Bool :=
  match env.ocspParseResponseForCert s.stream (some signer) issuer with
  | .ok _ => true
  | .error _ => false

/-- The error strings the OCSP loop appends, in order. -/
def ocspErrsOf (env : Env) (signer : Certificate) (issuer : Option Certificate) :
    List PdfObjectStream → List String
  | [] => []
  | s :: rest =>
    (match env.ocspParseResponseForCert s.stream (some signer) issuer with
      | .ok _ => []
      | .error e => [e]) ++ ocspErrsOf env signer issuer rest

/-- The revocation messages contributed by the inner VRI-certificate scan
for one revoked entry. -/
def revokedCertErrsOf (signer : Certificate) (rc : RevokedCertificate) :
    List Certificate → List String
  | [] => []
  | cert :: rest =>
    (if rc.serialNumber = cert.serialNumber
      then [revokedMessage signer.serialNumber] else [])
      ++ revokedCertErrsOf signer rc rest

/-- The revocation messages contributed by scanning one parsed CRL's
revoked certificates, in order. -/
def revokedErrsOf (signer : Certificate) (vriCerts : List Certificate) :
    List RevokedCertificate → List String
  | [] => []
  | rc :: rest =>
    (if rc.serialNumber = signer.serialNumber
      then [revokedMessage signer.serialNumber] else [])
      ++ revokedCertErrsOf signer rc vriCerts
      ++ revokedErrsOf signer vriCerts rest

/-- The error strings the CRL loop appends for one CRL stream. -/
def crlErrsOfStream (env : Env) (signer : Certificate) (vriCerts : List Certificate)
    (s : PdfObjectStream) : List String :=
  match env.x509ParseCRL s.stream with
  | .error e => [e]
  | .ok clr => revokedErrsOf signer vriCerts clr.revokedCertificates

/-- Whether one CRL stream passes the CRL loop silently: it parses and
lists no matching revoked serial. -/
def crlOk (env : Env) (signer : Certificate) (vriCerts : List Certificate)
    (s : PdfObjectStream) : Bool :=
  (crlErrsOfStream env signer vriCerts s).isEmpty

/-- The error strings the CRL loop appends over a whole stream list. -/
def crlErrsOf (env : Env) (signer : Certificate) (vriCerts : List Certificate) :
    List PdfObjectStream → List String
  | [] => []
  | s :: rest => crlErrsOfStream env signer vriCerts s ++ crlErrsOf env signer vriCerts rest

/-! Helper lemmas about the validator's loops. -/

theorem listIsEmpty_append {α : Type} (l1 l2 : List α) :
    (l1 ++ l2).isEmpty = (l1.isEmpty && l2.isEmpty) := by
  cases l1 <;> simp [List.isEmpty]

theorem ocspLoopAux_succ (env : Env) (signer : Certificate) (issuer : Option Certificate)
    (l : List PdfObjectStream) :
    ∀ (i : Nat) (flag : Bool) (errs : List String),
      ocspLoopAux env signer issuer l (i + 1) flag errs =
        (flag && l.all (ocspOk env signer issuer),
         errs ++ ocspErrsOf env signer issuer l) := by
  induction l with
  | nil => intro i flag errs; simp [ocspLoopAux, ocspErrsOf]
  | cons s rest ih =>
    intro i flag errs
    simp only [ocspLoopAux, Nat.succ_ne_zero, if_neg, List.all_cons, ocspErrsOf, ocspOk]
    cases h : env.ocspParseResponseForCert s.stream (some signer) issuer with
    | error e => simp [h, ih, Nat.succ_ne_zero]
    | ok u => simp [h, ih, Nat.succ_ne_zero]

/-- For a non-empty evidence list the OCSP loop returns "all entries
parse" as the flag and the concatenation of all parse errors. -/
theorem ocspLoop_cons (env : Env) (signer : Certificate) (issuer : Option Certificate)
    (s : PdfObjectStream) (rest : List PdfObjectStream) :
    ocspLoop env signer issuer (s :: rest) =
      ((s :: rest).all (ocspOk env signer issuer),
       ocspErrsOf env signer issuer (s :: rest)) := by
  simp only [ocspLoop, ocspLoopAux, if_pos rfl, List.all_cons, ocspErrsOf, ocspOk]
  cases h : env.ocspParseResponseForCert s.stream (some signer) issuer with
  | error e => simp [h, ocspLoopAux_succ, ocspOk]
  | ok u => simp [h, ocspLoopAux_succ, ocspOk]

theorem ocspErrsOf_length (env : Env) (signer : Certificate) (issuer : Option Certificate)
    (l : List PdfObjectStream) :
    (ocspErrsOf env signer issuer l).length =
      l.countP (fun s => !(ocspOk env signer issuer s)) := by
  induction l with
  | nil => simp [ocspErrsOf]
  | cons s rest ih =>
    simp only [ocspErrsOf, ocspOk, List.countP_cons, List.length_append, ih]
    cases h : env.ocspParseResponseForCert s.stream (some signer) issuer with
    | error e => simp [h]; omega
    | ok u => simp [h]

theorem revokedScanCerts_eq (signer : Certificate) (rc : RevokedCertificate)
    (l : List Certificate) :
    ∀ (flag : Bool) (errs : List String),
      revokedScanCerts signer rc l flag errs =
        (flag && (revokedCertErrsOf signer rc l).isEmpty,
         errs ++ revokedCertErrsOf signer rc l) := by
  induction l with
  | nil => intro flag errs; simp [revokedScanCerts, revokedCertErrsOf]
  | cons cert rest ih =>
    intro flag errs
    simp only [revokedScanCerts, revokedCertErrsOf]
    by_cases h : rc.serialNumber = cert.serialNumber
    · simp [h, ih]
    · simp [h, ih]

theorem revokedScan_eq (signer : Certificate) (vriCerts : List Certificate)
    (l : List RevokedCertificate) :
    ∀ (flag : Bool) (errs : List String),
      revokedScan signer vriCerts l flag errs =
        (flag && (revokedErrsOf signer vriCerts l).isEmpty,
         errs ++ revokedErrsOf signer vriCerts l) := by
  induction l with
  | nil => intro flag errs; simp [revokedScan, revokedErrsOf]
  | cons rc rest ih =>
    intro flag errs
    simp only [revokedScan, revokedErrsOf]
    by_cases h : rc.serialNumber = signer.serialNumber
    · simp [h, revokedScanCerts_eq, ih, listIsEmpty_append, Bool.and_assoc,
        List.append_assoc]
    · simp [h, revokedScanCerts_eq, ih, listIsEmpty_append, Bool.and_assoc,
        List.append_assoc]

theorem crlLoopAux_succ (env : Env) (signer : Certificate) (vriCerts : List Certificate)
    (l : List PdfObjectStream) :
    ∀ (i : Nat) (flag : Bool) (errs : List String),
      crlLoopAux env signer vriCerts l (i + 1) flag errs =
        (flag && l.all (crlOk env signer vriCerts),
         errs ++ crlErrsOf env signer vriCerts l) := by
  induction l with
  | nil => intro i flag errs; simp [crlLoopAux, crlErrsOf]
  | cons s rest ih =>
    intro i flag errs
    simp only [crlLoopAux, Nat.succ_ne_zero, if_neg, List.all_cons]
    cases h : env.x509ParseCRL s.stream with
    | error e =>
      simp [h, ih, crlErrsOf, crlErrsOfStream, crlOk, List.append_assoc]
    | ok clr =>
      simp [h, ih, revokedScan_eq, crlErrsOf, crlErrsOfStream, crlOk,
        List.append_assoc, Bool.and_assoc]

/-- For a non-empty CRL list the loop returns "every CRL parses and
lists no matching serial" as the flag and the concatenation of all
errors. -/
theorem crlLoop_cons (env : Env) (signer : Certificate) (vriCerts : List Certificate)
    (s : PdfObjectStream) (rest : List PdfObjectStream) :
    crlLoop env signer vriCerts (s :: rest) =
      ((s :: rest).all (crlOk env signer vriCerts),
       crlErrsOf env signer vriCerts (s :: rest)) := by
  simp only [crlLoop, crlLoopAux, if_pos rfl, List.all_cons]
  cases h : env.x509ParseCRL s.stream with
  | error e =>
    simp [h, crlLoopAux_succ, crlErrsOf, crlErrsOfStream, crlOk]
  | ok clr =>
    simp [h, crlLoopAux_succ, revokedScan_eq, crlErrsOf, crlErrsOfStream, crlOk,
      Bool.and_assoc]

/-! Helper lemmas about the VRI map and the signing pass. -/

theorem vriLookup_vriInsert_self (m : List (String × DSSCerts)) (k : String)
    (v : DSSCerts) : vriLookup (vriInsert m k v) k = some v := by
  induction m with
  | nil => simp [vriInsert, vriLookup]
  | cons p rest ih =>
    obtain ⟨k', v'⟩ := p
    by_cases h : k' = k
    · simp [vriInsert, vriLookup, h]
    · simp [vriInsert, vriLookup, h, ih]

/-- Full characterization of a successful real (non-dry-run) `Sign`:
every stage succeeded and the final handler state holds the populated
DSS, with the VRI entry stored under the fingerprint of the padded
contents. -/
theorem sign_real_ok (env : Env) (a : EtsiPAdES) (sig : PdfSignature) (digest : Bytes)
    (hinit : a.isInitializing = false)
    (hok : (Sign env a sig digest).err = none) :
    ∃ cert key der dss stream ocsps clrs,
      a.certificate = some cert ∧ a.privateKey = some key ∧ a.dss = some dss ∧
      buildDetachedSignature env a cert key digest = Except.ok der ∧
      env.makeStream cert.raw = Except.ok stream ∧
      makeOCSPRequests env a = Except.ok ocsps ∧
      makeCRLRequests env a = Except.ok clrs ∧
      Sign env a sig digest =
        ⟨{ a with dss := some (DSS.mk (dss.certs ++ [stream]) ocsps clrs
            (vriInsert dss.vri
              (fingerprint env (der ++ List.replicate (1024 * 2) 0))
              (DSSCerts.mk (dss.certs ++ [stream]) ocsps clrs))) },
          { sig with contents := der ++ List.replicate (1024 * 2) 0 }, none⟩ := by
  cases hc : a.certificate with
  | none => simp [Sign, hc] at hok
  | some cert =>
  cases hk : a.privateKey with
  | none => simp [Sign, hc, hk] at hok
  | some key =>
  cases hb : buildDetachedSignature env a cert key digest with
  | error e => simp [Sign, hc, hk, hb] at hok
  | ok der =>
  cases hs : env.makeStream cert.raw with
  | error e => simp [Sign, signDSS, hc, hk, hb, hinit, hs] at hok
  | ok stream =>
  cases hd : a.dss with
  | none => simp [Sign, signDSS, hc, hk, hb, hinit, hs, hd] at hok
  | some dss =>
  cases ho : makeOCSPRequests env a with
  | error e =>
    simp [Sign, signDSS, hc, hk, hb, hinit, hs, hd, ho] at hok
  | ok ocsps =>
  cases hr : makeCRLRequests env a with
  | error e =>
    simp [Sign, signDSS, hc, hk, hb, hinit, hs, hd, ho, hr] at hok
  | ok clrs =>
  refine ⟨cert, key, der, dss, stream, ocsps, clrs, rfl, rfl, rfl, hb, hs, rfl, rfl, ?_⟩
  simp [Sign, signDSS, hc, hk, hb, hinit, hs, hd, ho, hr, DSS.dssCerts]

/-- `signDSS` never touches the signature record it is given. -/
theorem signDSS_sig (env : Env) (a : EtsiPAdES) (sig : PdfSignature)
    (cert : Certificate) (data : Bytes) :
    (signDSS env a sig cert data).sig = sig := by
  rw [signDSS]
  cases env.makeStream cert.raw with
  | error e => rfl
  | ok stream =>
    cases a.dss with
    | none => rfl
    | some dss =>
      cases makeOCSPRequests env a with
      | error e => rfl
      | ok ocsps =>
        cases makeCRLRequests env a with
        | error e => rfl
        | ok clrs => rfl

/-- Characterization of a successful dry-run (`isInitializing`) `Sign`:
the handler is untouched and only the contents placeholder is written. -/
theorem sign_dryrun_ok (env : Env) (a : EtsiPAdES) (sig : PdfSignature) (digest : Bytes)
    (hinit : a.isInitializing = true)
    (hok : (Sign env a sig digest).err = none) :
    ∃ cert key der,
      a.certificate = some cert ∧ a.privateKey = some key ∧
      buildDetachedSignature env a cert key digest = Except.ok der ∧
      Sign env a sig digest =
        ⟨a, { sig with contents := der ++ List.replicate (1024 * 2) 0 }, none⟩ := by
  cases hc : a.certificate with
  | none => simp [Sign, hc] at hok
  | some cert =>
  cases hk : a.privateKey with
  | none => simp [Sign, hc, hk] at hok
  | some key =>
  cases hb : buildDetachedSignature env a cert key digest with
  | error e => simp [Sign, hc, hk, hb] at hok
  | ok der =>
  refine ⟨cert, key, der, rfl, rfl, hb, ?_⟩
  simp [Sign, hc, hk, hb, hinit]

/-- On every successful `Sign` pass (dry run or real) the contents are
exactly the DER signature padded with `1024*2` zero bytes. -/
theorem sign_ok_contents (env : Env) (a : EtsiPAdES) (sig : PdfSignature) (digest : Bytes)
    (hok : (Sign env a sig digest).err = none) :
    ∃ cert key der,
      a.certificate = some cert ∧ a.privateKey = some key ∧
      buildDetachedSignature env a cert key digest = Except.ok der ∧
      (Sign env a sig digest).sig.contents = der ++ List.replicate (1024 * 2) 0 := by
  cases hc : a.certificate with
  | none => simp [Sign, hc] at hok
  | some cert =>
  cases hk : a.privateKey with
  | none => simp [Sign, hc, hk] at hok
  | some key =>
  cases hb : buildDetachedSignature env a cert key digest with
  | error e => simp [Sign, hc, hk, hb] at hok
  | ok der =>
  refine ⟨cert, key, der, rfl, rfl, hb, ?_⟩
  cases hi : a.isInitializing with
  | true => simp [Sign, hc, hk, hb, hi]
  | false => simp [Sign, hc, hk, hb, hi, signDSS_sig]

/-- On every failing `Sign` pass the DSS's VRI map and CRL list are
unchanged and the certificate list has grown by at most the leaf
certificate stream (the deviation: the append precedes the fetches). -/
theorem sign_err_dss (env : Env) (a : EtsiPAdES) (sig : PdfSignature) (digest : Bytes)
    (dss : DSS) (hd : a.dss = some dss)
    (herr : (Sign env a sig digest).err.isSome) :
    ∃ d', (Sign env a sig digest).handler.dss = some d' ∧
      d'.vri = dss.vri ∧ d'.clrs = dss.clrs ∧
      (d'.certs = dss.certs ∨ ∃ s, d'.certs = dss.certs ++ [s]) := by
  cases hc : a.certificate with
  | none => exact ⟨dss, by simp [Sign, hc, hd], rfl, rfl, Or.inl rfl⟩
  | some cert =>
  cases hk : a.privateKey with
  | none => exact ⟨dss, by simp [Sign, hc, hk, hd], rfl, rfl, Or.inl rfl⟩
  | some key =>
  cases hb : buildDetachedSignature env a cert key digest with
  | error e => exact ⟨dss, by simp [Sign, hc, hk, hb, hd], rfl, rfl, Or.inl rfl⟩
  | ok der =>
  cases hi : a.isInitializing with
  | true => simp [Sign, hc, hk, hb, hi] at herr
  | false =>
  cases hs : env.makeStream cert.raw with
  | error e =>
    exact ⟨dss, by simp [Sign, signDSS, hc, hk, hb, hi, hs, hd], rfl, rfl, Or.inl rfl⟩
  | ok stream =>
  cases ho : makeOCSPRequests env a with
  | error e =>
    refine ⟨{ dss with certs := dss.certs ++ [stream] }, ?_, rfl, rfl,
      Or.inr ⟨stream, rfl⟩⟩
    simp [Sign, signDSS, hc, hk, hb, hi, hs, hd, ho]
  | ok ocsps =>
  cases hr : makeCRLRequests env a with
  | error e =>
    refine ⟨{ dss with certs := dss.certs ++ [stream], ocsps := ocsps }, ?_, rfl, rfl,
      Or.inr ⟨stream, rfl⟩⟩
    simp [Sign, signDSS, hc, hk, hb, hi, hs, hd, ho, hr]
  | ok clrs =>
  simp [Sign, signDSS, hc, hk, hb, hi, hs, hd, ho, hr] at herr

/-- Characterization of a successful `InitSignature`: the handler copy is
frozen with a fresh empty DSS, the signature record carries the
Adobe.PPKLite / ETSI.CAdES.detached names, a cleared reference and a
placeholder sized from the dry-run DER signature over the probe payload. -/
theorem initSignature_ok (env : Env) (a : EtsiPAdES) (sig : PdfSignature)
    (hok : (InitSignature env a sig).err = none) :
    ∃ cert key der,
      a.certificate = some cert ∧ a.privateKey = some key ∧
      buildDetachedSignature env
        { a with dss := some (DSS.mk [] [] [] []), isInitializing := true }
        cert key probePayload = Except.ok der ∧
      InitSignature env a sig =
        ⟨{ a with dss := some (DSS.mk [] [] [] []) },
         { a with dss := some (DSS.mk [] [] [] []), isInitializing := false },
         PdfSignature.mk (some "Adobe.PPKLite") (some "ETSI.CAdES.detached")
           (der ++ List.replicate (1024 * 2) 0) none,
         none⟩ := by
  by_cases h1 : (!a.emptySignature && a.certificate.isNone) = true
  · rw [InitSignature, if_pos h1] at hok; simp at hok
  · by_cases h2 : (!a.emptySignature && a.privateKey.isNone) = true
    · rw [InitSignature, if_neg h1, if_pos h2] at hok; simp at hok
    · rw [InitSignature, if_neg h1, if_neg h2] at hok
      have hok' : (Sign env
          { a with dss := some (DSS.mk [] [] [] []), isInitializing := true }
          (PdfSignature.mk (some "Adobe.PPKLite") (some "ETSI.CAdES.detached")
            sig.contents none)
          probePayload).err = none := hok
      obtain ⟨cert, key, der, hc, hk, hb, heq⟩ :=
        sign_dryrun_ok env _ _ probePayload rfl hok'
      refine ⟨cert, key, der, hc, hk, hb, ?_⟩
      rw [InitSignature, if_neg h1, if_neg h2]
      simp only [heq]

/-- Unfolding of a `ValidateEx` run that found a VRI entry and passed
the two fatal stages: the result aggregates the two evidence loops. -/
theorem validateEx_ok_vri (env : Env) (a : EtsiPAdES) (sig : PdfSignature)
    (digest : Bytes) (r : Option PdfReader) (v : DSSCerts) (p7 : P7)
    (certs : List Certificate)
    (hvri : vriOf env sig r = some v)
    (hp7 : env.pkcs7Parse sig.contents = Except.ok p7)
    (hcerts : parseCerts env v.certs = Except.ok certs)
    (hverify : env.p7Verify p7 digest = Except.ok ()) :
    ValidateEx env a sig digest r =
      Except.ok
        (SignatureValidationResult.mk true true true
          (decide (0 < v.ocsps.length))
          (ocspLoop env p7.onlySigner (findIssuer certs p7.onlySigner) v.ocsps).1
          (decide (0 < v.clrs.length))
          (crlLoop env p7.onlySigner certs v.clrs).1
          ((ocspLoop env p7.onlySigner (findIssuer certs p7.onlySigner) v.ocsps).2 ++
            (crlLoop env p7.onlySigner certs v.clrs).2)) := by
  simp [ValidateEx, hvri, hp7, hcerts, hverify]

/-- Unfolding of a `ValidateEx` run with no VRI entry that passed the two
fatal stages: integrity-only result, no evidence flags, no errors. -/
theorem validateEx_ok_no_vri (env : Env) (a : EtsiPAdES) (sig : PdfSignature)
    (digest : Bytes) (r : Option PdfReader) (p7 : P7)
    (hvri : vriOf env sig r = none)
    (hp7 : env.pkcs7Parse sig.contents = Except.ok p7)
    (hverify : env.p7Verify p7 digest = Except.ok ()) :
    ValidateEx env a sig digest r =
      Except.ok (SignatureValidationResult.mk true true false false false false false []) := by
  simp [ValidateEx, hvri, hp7, parseCerts, hverify]

/-- `ValidateEx` returns a hard error exactly on CMS decode failure, VRI
certificate parse failure, or signature verification failure. -/
theorem validateEx_error_iff (env : Env) (a : EtsiPAdES) (sig : PdfSignature)
    (digest : Bytes) (r : Option PdfReader) :
    (∃ e, ValidateEx env a sig digest r = Except.error e) ↔
      ((∃ e, env.pkcs7Parse sig.contents = Except.error e) ∨
        (∃ p7, env.pkcs7Parse sig.contents = Except.ok p7 ∧
          ((∃ e, (match vriOf env sig r with
              | some v => parseCerts env v.certs
              | none => Except.ok []) = Except.error e) ∨
            (∃ certs, (match vriOf env sig r with
                | some v => parseCerts env v.certs
                | none => Except.ok []) = Except.ok certs ∧
              ∃ e, env.p7Verify p7 digest = Except.error e)))) := by
  cases hp7 : env.pkcs7Parse sig.contents with
  | error e => simp [ValidateEx, hp7]
  | ok p7 =>
  cases hvri : vriOf env sig r with
  | none =>
    cases hverify : env.p7Verify p7 digest with
    | error e => simp [ValidateEx, hp7, hvri, parseCerts, hverify]
    | ok u => cases u; simp [ValidateEx, hp7, hvri, parseCerts, hverify]
  | some v =>
    cases hcerts : parseCerts env v.certs with
    | error e => simp [ValidateEx, hp7, hvri, hcerts]
    | ok certs =>
      cases hverify : env.p7Verify p7 digest with
      | error e => simp [ValidateEx, hp7, hvri, hcerts, hverify]
      | ok u => cases u; simp [ValidateEx, hp7, hvri, hcerts, hverify]

/-- Uniform characterization of the OCSP loop: the flag is "the list is
non-empty and every entry parses", the errors are those of the failing
entries in order. -/
theorem ocspLoop_eq (env : Env) (signer : Certificate) (issuer : Option Certificate)
    (l : List PdfObjectStream) :
    ocspLoop env signer issuer l =
      (!l.isEmpty && l.all (ocspOk env signer issuer),
       ocspErrsOf env signer issuer l) := by
  cases l with
  | nil => simp [ocspLoop, ocspLoopAux, ocspErrsOf, List.isEmpty]
  | cons s rest => simp [ocspLoop_cons, List.isEmpty]

/-- Uniform characterization of the CRL loop. -/
theorem crlLoop_eq (env : Env) (signer : Certificate) (vriCerts : List Certificate)
    (l : List PdfObjectStream) :
    crlLoop env signer vriCerts l =
      (!l.isEmpty && l.all (crlOk env signer vriCerts),
       crlErrsOf env signer vriCerts l) := by
  cases l with
  | nil => simp [crlLoop, crlLoopAux, crlErrsOf, List.isEmpty]
  | cons s rest => simp [crlLoop_cons, List.isEmpty]

theorem mem_revokedCertErrsOf (signer : Certificate) (rc : RevokedCertificate)
    (certs : List Certificate) (c : Certificate) (hc : c ∈ certs)
    (hsn : rc.serialNumber = c.serialNumber) :
    revokedMessage signer.serialNumber ∈ revokedCertErrsOf signer rc certs := by
  induction certs with
  | nil => cases hc
  | cons c0 rest ih =>
    cases hc with
    | head => simp [revokedCertErrsOf, hsn]
    | tail _ hmem =>
      simp only [revokedCertErrsOf, List.mem_append]
      exact Or.inr (ih hmem)

theorem mem_revokedErrsOf (signer : Certificate) (vriCerts : List Certificate)
    (rcs : List RevokedCertificate) (rc : RevokedCertificate) (hrc : rc ∈ rcs)
    (hmatch : rc.serialNumber = signer.serialNumber ∨
      ∃ c ∈ vriCerts, rc.serialNumber = c.serialNumber) :
    revokedMessage signer.serialNumber ∈ revokedErrsOf signer vriCerts rcs := by
  induction rcs with
  | nil => cases hrc
  | cons rc0 rest ih =>
    cases hrc with
    | head =>
      cases hmatch with
      | inl h => simp [revokedErrsOf, h]
      | inr h =>
        obtain ⟨c, hc, hsn⟩ := h
        simp only [revokedErrsOf, List.mem_append]
        exact Or.inl (Or.inr (mem_revokedCertErrsOf signer rc vriCerts c hc hsn))
    | tail _ hmem =>
      simp only [revokedErrsOf, List.mem_append]
      exact Or.inr (ih hmem)

theorem mem_crlErrsOf (env : Env) (signer : Certificate) (vriCerts : List Certificate)
    (l : List PdfObjectStream) (s : PdfObjectStream) (hs : s ∈ l) (msg : String)
    (hmsg : msg ∈ crlErrsOfStream env signer vriCerts s) :
    msg ∈ crlErrsOf env signer vriCerts l := by
  induction l with
  | nil => cases hs
  | cons s0 rest ih =>
    cases hs with
    | head => simp only [crlErrsOf, List.mem_append]; exact Or.inl hmsg
    | tail _ hmem => simp only [crlErrsOf, List.mem_append]; exact Or.inr (ih hmem)

theorem all_eq_false_of_mem {α : Type} (l : List α) (p : α → Bool) (x : α)
    (hx : x ∈ l) (hp : p x = false) : l.all p = false := by
  cases h : l.all p with
  | false => rfl
  | true =>
    rw [List.all_eq_true] at h
    rw [h x hx] at hp
    cases hp

/-! Claim theorems. -/

/-- C9: `IsApplicable(sig)` is true exactly when the signature is
non-null, both `Filter` and `SubFilter` are present, and they equal
"Adobe.PPKLite" and "ETSI.CAdES.detached"; consequently any signature
record on which `InitSignature` succeeded is applicable. -/
theorem c9_is_applicable :
    (∀ sig : Option PdfSignature,
      IsApplicable sig = true ↔
        ∃ s, sig = some s ∧ s.filter = some "Adobe.PPKLite" ∧
          s.subFilter = some "ETSI.CAdES.detached") ∧
    (∀ (env : Env) (a : EtsiPAdES) (sig : PdfSignature),
      (InitSignature env a sig).err = none →
      IsApplicable (some (InitSignature env a sig).sig) = true) := by
  constructor
  · intro sig
    cases sig with
    | none => simp [IsApplicable]
    | some s =>
      cases hf : s.filter with
      | none => simp [IsApplicable, hf]
      | some f =>
        cases hsf : s.subFilter with
        | none => simp [IsApplicable, hf, hsf]
        | some sf =>
          simp [IsApplicable, hf, hsf]
  · intro env a sig hok
    obtain ⟨cert, key, der, hc, hk, hb, heq⟩ := initSignature_ok env a sig hok
    rw [heq]
    simp [IsApplicable]

/-- C9 witness: a concrete successful `InitSignature` whose signature
record the handler recognizes. -/
theorem c9_is_applicable_witness :
    IsApplicable (some (InitSignature baseEnv aW {}).sig) = true :=
  c9_is_applicable.2 baseEnv aW {} (by rfl)

/-- C10: `Validate` is definitionally `ValidateEx` with a nil reader, and
any result it returns has all VRI/OCSP/CRL flags false and no errors. -/
theorem c10_validate_refines_validateEx :
    (∀ (env : Env) (a : EtsiPAdES) (sig : PdfSignature) (digest : Bytes),
      Validate env a sig digest = ValidateEx env a sig digest none) ∧
    (∀ (env : Env) (a : EtsiPAdES) (sig : PdfSignature) (digest : Bytes)
        (res : SignatureValidationResult),
      Validate env a sig digest = Except.ok res →
      res.isVRIFound = false ∧ res.isOCSPsFound = false ∧
      res.isVerifiedByOCSPs = false ∧ res.isCLRsFound = false ∧
      res.isVerifiedByCLRs = false ∧ res.errors = []) := by
  refine ⟨fun env a sig digest => rfl, ?_⟩
  intro env a sig digest res h
  rw [Validate] at h
  cases hp7 : env.pkcs7Parse sig.contents with
  | error e => simp [ValidateEx, hp7] at h
  | ok p7 =>
    cases hverify : env.p7Verify p7 digest with
    | error e => simp [ValidateEx, vriOf, hp7, parseCerts, hverify] at h
    | ok u =>
      cases u
      rw [validateEx_ok_no_vri env a sig digest none p7 rfl hp7 hverify] at h
      injection h with h'
      rw [← h']
      exact ⟨rfl, rfl, rfl, rfl, rfl, rfl⟩

/-- C10 witness: a concrete `Validate` run returning a result with all
evidence flags false and no errors. -/
theorem c10_validate_refines_validateEx_witness :
    (SignatureValidationResult.mk true true false false false false false
        []).isVRIFound = false ∧
      (SignatureValidationResult.mk true true false false false false false
        []).isOCSPsFound = false ∧
      (SignatureValidationResult.mk true true false false false false false
        []).isVerifiedByOCSPs = false ∧
      (SignatureValidationResult.mk true true false false false false false
        []).isCLRsFound = false ∧
      (SignatureValidationResult.mk true true false false false false false
        []).isVerifiedByCLRs = false ∧
      (SignatureValidationResult.mk true true false false false false false
        []).errors = [] :=
  c10_validate_refines_validateEx.2 baseEnv aW sigW [0] _ (by decide)

/-- C7: each level builder checks its required fields in the fixed order
(private key, certificate, CA certificate, then the per-level additions)
and fails with an error naming the first missing field, returning a
handler exactly when all required fields are present.  `New` is a total
function, so a missing field can only produce the error value, never a
panic. -/
theorem c7_builders_first_missing :
    (∀ p : PAdESLevelB, PAdESLevelB.New p =
      (match firstMissingB p with
        | some f => Except.error (requiredFieldErr f)
        | none => Except.ok (EtsiPAdES.mk p.privateKey p.certificate
            false false none p.caCert [] [] ""))) ∧
    (∀ p : PAdESLevelB, (∃ h, PAdESLevelB.New p = Except.ok h) ↔
      (p.privateKey.isSome ∧ p.certificate.isSome ∧ p.caCert.isSome)) ∧
    (∀ p : PAdESLevelT, PAdESLevelT.New p =
      (match firstMissingT p with
        | some f => Except.error (requiredFieldErr f)
        | none => Except.ok (EtsiPAdES.mk p.privateKey p.certificate
            false false none p.caCert [] [] p.certificateTimestampServerURL))) ∧
    (∀ p : PAdESLevelT, (∃ h, PAdESLevelT.New p = Except.ok h) ↔
      (p.privateKey.isSome ∧ p.certificate.isSome ∧ p.caCert.isSome ∧
        p.certificateTimestampServerURL ≠ "")) ∧
    (∀ p : PAdESLevelLT, PAdESLevelLT.New p =
      (match firstMissingLT p with
        | some f => Except.error (requiredFieldErr f)
        | none => Except.ok (EtsiPAdES.mk p.privateKey p.certificate
            false false none p.caCert p.clrDistributionPoints p.ocspServers
            p.certificateTimestampServerURL))) ∧
    (∀ p : PAdESLevelLT, (∃ h, PAdESLevelLT.New p = Except.ok h) ↔
      (p.privateKey.isSome ∧ p.certificate.isSome ∧ p.caCert.isSome ∧
        p.certificateTimestampServerURL ≠ "" ∧
        p.clrDistributionPoints ≠ [] ∧ p.ocspServers ≠ [])) ∧
    (∀ p : PAdESLevelLTA, PAdESLevelLTA.New p =
      (match firstMissingLTA p with
        | some f => Except.error (requiredFieldErr f)
        | none => Except.ok (EtsiPAdES.mk p.privateKey p.certificate
            false false none p.caCert p.clrDistributionPoints p.ocspServers
            p.certificateTimestampServerURL,
            DocTimeStamp.mk p.timestampServerURL cryptoSHA512))) ∧
    (∀ p : PAdESLevelLTA, (∃ hs, PAdESLevelLTA.New p = Except.ok hs) ↔
      (p.privateKey.isSome ∧ p.certificate.isSome ∧ p.caCert.isSome ∧
        p.certificateTimestampServerURL ≠ "" ∧
        p.clrDistributionPoints ≠ [] ∧ p.ocspServers ≠ [] ∧
        p.timestampServerURL ≠ "")) := by
  refine ⟨?_, ?_, ?_, ?_, ?_, ?_, ?_, ?_⟩
  · intro p
    by_cases h1 : p.privateKey.isNone <;>
      by_cases h2 : p.certificate.isNone <;>
        by_cases h3 : p.caCert.isNone <;>
          simp [PAdESLevelB.New, firstMissingB, requiredFieldErr, h1, h2, h3]
  · intro p
    cases hk : p.privateKey with
    | none => simp [PAdESLevelB.New, hk]
    | some k =>
    cases hc : p.certificate with
    | none => simp [PAdESLevelB.New, hk, hc]
    | some c =>
    cases hca : p.caCert with
    | none => simp [PAdESLevelB.New, hk, hc, hca]
    | some ca => simp [PAdESLevelB.New, hk, hc, hca]
  · intro p
    by_cases h1 : p.privateKey.isNone <;>
      by_cases h2 : p.certificate.isNone <;>
        by_cases h3 : p.caCert.isNone <;>
          by_cases h4 : p.certificateTimestampServerURL = "" <;>
            simp [PAdESLevelT.New, firstMissingT, requiredFieldErr, h1, h2, h3, h4]
  · intro p
    cases hk : p.privateKey with
    | none => simp [PAdESLevelT.New, hk]
    | some k =>
    cases hc : p.certificate with
    | none => simp [PAdESLevelT.New, hk, hc]
    | some c =>
    cases hca : p.caCert with
    | none => simp [PAdESLevelT.New, hk, hc, hca]
    | some ca =>
    by_cases hts : p.certificateTimestampServerURL = "" <;>
      simp [PAdESLevelT.New, hk, hc, hca, hts]
  · intro p
    by_cases h1 : p.privateKey.isNone <;>
      by_cases h2 : p.certificate.isNone <;>
        by_cases h3 : p.caCert.isNone <;>
          by_cases h4 : p.certificateTimestampServerURL = "" <;>
            by_cases h5 : p.clrDistributionPoints.length = 0 <;>
              by_cases h6 : p.ocspServers.length = 0 <;>
                simp [PAdESLevelLT.New, firstMissingLT, requiredFieldErr,
                  h1, h2, h3, h4, h5, h6]
  · intro p
    cases hk : p.privateKey with
    | none => simp [PAdESLevelLT.New, hk]
    | some k =>
    cases hc : p.certificate with
    | none => simp [PAdESLevelLT.New, hk, hc]
    | some c =>
    cases hca : p.caCert with
    | none => simp [PAdESLevelLT.New, hk, hc, hca]
    | some ca =>
    by_cases hts : p.certificateTimestampServerURL = "" <;>
      by_cases h5 : p.clrDistributionPoints = [] <;>
        by_cases h6 : p.ocspServers = [] <;>
          simp [PAdESLevelLT.New, hk, hc, hca, hts, h5, h6, List.length_eq_zero]
  · intro p
    by_cases h1 : p.privateKey.isNone <;>
      by_cases h2 : p.certificate.isNone <;>
        by_cases h3 : p.caCert.isNone <;>
          by_cases h4 : p.certificateTimestampServerURL = "" <;>
            by_cases h5 : p.clrDistributionPoints.length = 0 <;>
              by_cases h6 : p.ocspServers.length = 0 <;>
                by_cases h7 : p.timestampServerURL = "" <;>
                  simp [PAdESLevelLTA.New, firstMissingLTA, requiredFieldErr,
                    NewDocTimeStamp, h1, h2, h3, h4, h5, h6, h7]
  · intro p
    cases hk : p.privateKey with
    | none => simp [PAdESLevelLTA.New, hk]
    | some k =>
    cases hc : p.certificate with
    | none => simp [PAdESLevelLTA.New, hk, hc]
    | some c =>
    cases hca : p.caCert with
    | none => simp [PAdESLevelLTA.New, hk, hc, hca]
    | some ca =>
    by_cases hts : p.certificateTimestampServerURL = "" <;>
      by_cases h5 : p.clrDistributionPoints = [] <;>
        by_cases h6 : p.ocspServers = [] <;>
          by_cases h7 : p.timestampServerURL = "" <;>
            simp [PAdESLevelLTA.New, NewDocTimeStamp, hk, hc, hca, hts, h5, h6, h7,
              List.length_eq_zero]

/-- C3: after a successful real `Sign`, looking up the fingerprint of
the written contents in the produced DSS's VRI map finds the stored
entry (the key written equals the fingerprint `ValidateEx` recomputes
from `sig.Contents.Bytes()`), and fingerprinting is deterministic. -/
theorem c3_vri_key_roundtrip :
    (∀ (env : Env) (a : EtsiPAdES) (sig : PdfSignature) (digest : Bytes),
      a.isInitializing = false →
      (Sign env a sig digest).err = none →
      ∃ d entry, (Sign env a sig digest).handler.dss = some d ∧
        vriLookup d.vri (fingerprint env (Sign env a sig digest).sig.contents) =
          some entry) ∧
    (∀ (env : Env) (b1 b2 : Bytes), b1 = b2 →
      fingerprint env b1 = fingerprint env b2) := by
  constructor
  · intro env a sig digest hinit hok
    obtain ⟨cert, key, der, dss, stream, ocsps, clrs, hc, hk, hd, hb, hs, ho, hr, heq⟩ :=
      sign_real_ok env a sig digest hinit hok
    rw [heq]
    exact ⟨_, _, rfl, vriLookup_vriInsert_self _ _ _⟩
  · intro env b1 b2 h
    rw [h]

/-- C3 witness: a concrete successful real signing pass whose VRI entry
is found again under the recomputed fingerprint. -/
theorem c3_vri_key_roundtrip_witness :
    ∃ d entry, (Sign baseEnv aRealW sigW []).handler.dss = some d ∧
      vriLookup d.vri (fingerprint baseEnv (Sign baseEnv aRealW sigW []).sig.contents) =
        some entry :=
  c3_vri_key_roundtrip.1 baseEnv aRealW sigW [] rfl (by rfl)

/-- C2 counterexample: with a failing OCSP server, the real `Sign`
returns an error, yet the handler's DSS is no longer in its pre-call
state: the leaf certificate stream was already appended. -/
theorem c2_dss_error_counterexample :
    (Sign envC2 aC2 sigW []).err = some "Post ocsp: connection refused" ∧
    aC2.dss = some (DSS.mk [] [] [] []) ∧
    (Sign envC2 aC2 sigW []).handler.dss =
      some (DSS.mk [PdfObjectStream.mk [1, 2, 3]] [] [] []) :=
  ⟨by rfl, by rfl, by rfl⟩

/-- C2 amended: when a CRL fetch or OCSP request fails, `Sign` returns
an error, adds no VRI entry and leaves the CRL list unchanged, but the
leaf certificate stream may already have been appended to `dss.Certs`
(and, on a CRL failure, `dss.OCSPs` has already been overwritten),
because the certificate append precedes the network fetches. -/
theorem c2_dss_error_amended (env : Env) (a : EtsiPAdES) (sig : PdfSignature)
    (digest : Bytes) (dss : DSS) (hd : a.dss = some dss)
    (herr : (Sign env a sig digest).err.isSome) :
    ∃ d', (Sign env a sig digest).handler.dss = some d' ∧
      d'.vri = dss.vri ∧ d'.clrs = dss.clrs ∧
      (d'.certs = dss.certs ∨ ∃ s, d'.certs = dss.certs ++ [s]) :=
  sign_err_dss env a sig digest dss hd herr

/-- C2 amended witness: the concrete failing OCSP scenario. -/
theorem c2_dss_error_amended_witness :
    ∃ d', (Sign envC2 aC2 sigW []).handler.dss = some d' ∧
      d'.vri = (DSS.mk [] [] [] []).vri ∧ d'.clrs = (DSS.mk [] [] [] []).clrs ∧
      (d'.certs = (DSS.mk [] [] [] []).certs ∨
        ∃ s, d'.certs = (DSS.mk [] [] [] []).certs ++ [s]) :=
  c2_dss_error_amended envC2 aC2 sigW [] (DSS.mk [] [] [] []) rfl (by rfl)

/-- C1 counterexample: the dry-run DER is 1 byte, so `InitSignature`
fixes `Contents` at length `1 + 2048`; the real `Sign` produces a
2050-byte DER, succeeds, and rewrites `Contents` to length
`2050 + 2048`: the length changed and the oversized signature was not
rejected. -/
theorem c1_contents_length_counterexample :
    (InitSignature envC1 aW {}).err = none ∧
    (InitSignature envC1 aW {}).sig.contents.length = 1 + 2048 ∧
    (Sign envC1 (InitSignature envC1 aW {}).handler (InitSignature envC1 aW {}).sig
      []).err = none ∧
    (Sign envC1 (InitSignature envC1 aW {}).handler (InitSignature envC1 aW {}).sig
      []).sig.contents.length = 2050 + 2048 := by
  refine ⟨by rfl, ?_, by rfl, ?_⟩
  · obtain ⟨cert, key, der, hc, hk, hb, heq⟩ := initSignature_ok envC1 aW {} (by rfl)
    have h2 : buildDetachedSignature envC1
        { aW with dss := some (DSS.mk [] [] [] []), isInitializing := true }
        cert key probePayload = Except.ok (List.replicate 1 7) := by rfl
    rw [hb] at h2
    have hder : der = List.replicate 1 7 := Except.ok.inj h2
    rw [heq]
    show (der ++ List.replicate (1024 * 2) 0).length = 1 + 2048
    rw [hder, List.length_append, List.length_replicate, List.length_replicate]
  · obtain ⟨cert, key, der, hc, hk, hb, hcont⟩ :=
      sign_ok_contents envC1 (InitSignature envC1 aW {}).handler
        (InitSignature envC1 aW {}).sig [] (by rfl)
    have h2 : buildDetachedSignature envC1 (InitSignature envC1 aW {}).handler
        cert key [] = Except.ok (List.replicate 2050 7) := by rfl
    rw [hb] at h2
    have hder : der = List.replicate 2050 7 := Except.ok.inj h2
    rw [hcont, hder, List.length_append, List.length_replicate, List.length_replicate]

/-- C1 amended: every `Sign` pass (dry run or real) sets `Contents` to a
fresh value whose length is that pass's DER length plus 2048; the length
fixed by `InitSignature` is not preserved when the real DER length
differs from the dry-run DER length, and an oversized real signature is
not rejected. -/
theorem c1_contents_length_amended (env : Env) (a : EtsiPAdES) (sig : PdfSignature)
    (digest : Bytes) (hok : (Sign env a sig digest).err = none) :
    ∃ cert key der, a.certificate = some cert ∧ a.privateKey = some key ∧
      buildDetachedSignature env a cert key digest = Except.ok der ∧
      (Sign env a sig digest).sig.contents.length = der.length + 2048 := by
  obtain ⟨cert, key, der, hc, hk, hb, hcontents⟩ := sign_ok_contents env a sig digest hok
  refine ⟨cert, key, der, hc, hk, hb, ?_⟩
  rw [hcontents, List.length_append, List.length_replicate]

/-- C1 amended witness: the concrete oversized-real-signature scenario,
where the real pass succeeds with a contents length different from the
one fixed at initialization. -/
theorem c1_contents_length_amended_witness :
    ∃ cert key der, aRealW.certificate = some cert ∧ aRealW.privateKey = some key ∧
      buildDetachedSignature baseEnv aRealW cert key [] = Except.ok der ∧
      (Sign baseEnv aRealW sigW []).sig.contents.length = der.length + 2048 :=
  c1_contents_length_amended baseEnv aRealW sigW [] (by rfl)

/-- C8: the `Contents` placeholder allocated by `InitSignature` has
length exactly the dry-run DER length plus 2048, and every successful
real `Sign` writes the DER signature as a prefix of `Contents` with the
remainder zero-padded. -/
theorem c8_placeholder_sizing :
    (∀ (env : Env) (a : EtsiPAdES) (sig : PdfSignature),
      (InitSignature env a sig).err = none →
      ∃ cert key der,
        a.certificate = some cert ∧ a.privateKey = some key ∧
        buildDetachedSignature env
          { a with dss := some (DSS.mk [] [] [] []), isInitializing := true }
          cert key probePayload = Except.ok der ∧
        (InitSignature env a sig).sig.contents = der ++ List.replicate 2048 0 ∧
        (InitSignature env a sig).sig.contents.length = der.length + 2048) ∧
    (∀ (env : Env) (a : EtsiPAdES) (sig : PdfSignature) (digest : Bytes),
      a.isInitializing = false →
      (Sign env a sig digest).err = none →
      ∃ cert key der,
        a.certificate = some cert ∧ a.privateKey = some key ∧
        buildDetachedSignature env a cert key digest = Except.ok der ∧
        (Sign env a sig digest).sig.contents = der ++ List.replicate 2048 0) := by
  constructor
  · intro env a sig hok
    obtain ⟨cert, key, der, hc, hk, hb, heq⟩ := initSignature_ok env a sig hok
    refine ⟨cert, key, der, hc, hk, hb, ?_, ?_⟩
    · rw [heq]
    · rw [heq]; simp
  · intro env a sig digest hinit hok
    obtain ⟨cert, key, der, hc, hk, hb, hcontents⟩ := sign_ok_contents env a sig digest hok
    exact ⟨cert, key, der, hc, hk, hb, hcontents⟩

/-- C8 witness: concrete sizing pass and real pass. -/
theorem c8_placeholder_sizing_witness :
    (∃ cert key der,
      aW.certificate = some cert ∧ aW.privateKey = some key ∧
      buildDetachedSignature baseEnv
        { aW with dss := some (DSS.mk [] [] [] []), isInitializing := true }
        cert key probePayload = Except.ok der ∧
      (InitSignature baseEnv aW {}).sig.contents = der ++ List.replicate 2048 0 ∧
      (InitSignature baseEnv aW {}).sig.contents.length = der.length + 2048) ∧
    (∃ cert key der,
      aRealW.certificate = some cert ∧ aRealW.privateKey = some key ∧
      buildDetachedSignature baseEnv aRealW cert key [] = Except.ok der ∧
      (Sign baseEnv aRealW sigW []).sig.contents = der ++ List.replicate 2048 0) :=
  ⟨c8_placeholder_sizing.1 baseEnv aW {} (by rfl),
   c8_placeholder_sizing.2 baseEnv aRealW sigW [] rfl (by rfl)⟩

/-- C6 counterexample: a VRI certificate stream that fails X.509 parsing
makes `ValidateEx` return a hard error even though CMS decoding and
signature verification both succeed, so decode/verify failures are not
the only fatal cases. -/
theorem c6_hard_error_counterexample :
    ValidateEx envC6 {} sigW [0] (some readerC6) =
      Except.error "x509: malformed certificate" ∧
    envC6.pkcs7Parse sigW.contents = Except.ok (P7.mk certW) ∧
    envC6.p7Verify (P7.mk certW) [0] = Except.ok () :=
  ⟨by rfl, by rfl, by rfl⟩

/-- C6 amended: `ValidateEx` returns a hard error exactly when the CMS
structure fails to decode, a certificate stream of the found VRI entry
fails to parse, or signature verification fails; absence of a VRI entry
is never fatal and yields `IsVRIFound=false`, `IsSigned=true`,
`IsVerified=true` when integrity holds. -/
theorem c6_hard_error_amended :
    (∀ (env : Env) (a : EtsiPAdES) (sig : PdfSignature) (digest : Bytes)
        (r : Option PdfReader),
      (∃ e, ValidateEx env a sig digest r = Except.error e) ↔
        ((∃ e, env.pkcs7Parse sig.contents = Except.error e) ∨
          (∃ p7, env.pkcs7Parse sig.contents = Except.ok p7 ∧
            ((∃ e, (match vriOf env sig r with
                | some v => parseCerts env v.certs
                | none => Except.ok []) = Except.error e) ∨
              (∃ certs, (match vriOf env sig r with
                  | some v => parseCerts env v.certs
                  | none => Except.ok []) = Except.ok certs ∧
                ∃ e, env.p7Verify p7 digest = Except.error e))))) ∧
    (∀ (env : Env) (a : EtsiPAdES) (sig : PdfSignature) (digest : Bytes)
        (r : Option PdfReader) (p7 : P7),
      vriOf env sig r = none →
      env.pkcs7Parse sig.contents = Except.ok p7 →
      env.p7Verify p7 digest = Except.ok () →
      ValidateEx env a sig digest r =
        Except.ok (SignatureValidationResult.mk true true false false false false
          false [])) :=
  ⟨validateEx_error_iff,
   fun env a sig digest r p7 hvri hp7 hv =>
     validateEx_ok_no_vri env a sig digest r p7 hvri hp7 hv⟩

/-- C6 amended witness: a concrete reader-less validation that passes
both fatal stages and reports an integrity-only result. -/
theorem c6_hard_error_amended_witness :
    ValidateEx baseEnv {} sigW [0] none =
      Except.ok (SignatureValidationResult.mk true true false false false false
        false []) :=
  c6_hard_error_amended.2 baseEnv {} sigW [0] none (P7.mk certW) rfl rfl rfl

/-- C4: with a non-empty OCSP list in the VRI entry,
`IsVerifiedByOCSPs` is true exactly when every response parses for the
signer/issuer pair; the result's errors are the OCSP loop errors
followed by the CRL loop errors, and one failing response among any
number of valid ones leaves the flag false with exactly one OCSP error
entry. -/
theorem c4_ocsp_all_must_validate (env : Env) (a : EtsiPAdES) (sig : PdfSignature)
    (digest : Bytes) (r : Option PdfReader) (v : DSSCerts) (p7 : P7)
    (certs : List Certificate) (res : SignatureValidationResult)
    (hvri : vriOf env sig r = some v)
    (hp7 : env.pkcs7Parse sig.contents = Except.ok p7)
    (hcerts : parseCerts env v.certs = Except.ok certs)
    (hne : v.ocsps ≠ [])
    (hres : ValidateEx env a sig digest r = Except.ok res) :
    (res.isVerifiedByOCSPs = true ↔
      ∀ s ∈ v.ocsps,
        ocspOk env p7.onlySigner (findIssuer certs p7.onlySigner) s = true) ∧
    (res.errors =
      ocspErrsOf env p7.onlySigner (findIssuer certs p7.onlySigner) v.ocsps ++
        crlErrsOf env p7.onlySigner certs v.clrs) ∧
    (v.ocsps.countP
        (fun s => !(ocspOk env p7.onlySigner (findIssuer certs p7.onlySigner) s)) = 1 →
      res.isVerifiedByOCSPs = false ∧
      (ocspErrsOf env p7.onlySigner (findIssuer certs p7.onlySigner) v.ocsps).length
        = 1) := by
  cases hverify : env.p7Verify p7 digest with
  | error e => exact absurd hres (by simp [ValidateEx, hvri, hp7, hcerts, hverify])
  | ok u =>
  cases u
  rw [validateEx_ok_vri env a sig digest r v p7 certs hvri hp7 hcerts hverify] at hres
  have hr : res = _ := (Except.ok.inj hres).symm
  subst hr
  refine ⟨?_, ?_, ?_⟩
  · show (ocspLoop env p7.onlySigner (findIssuer certs p7.onlySigner) v.ocsps).1
      = true ↔ _
    rw [ocspLoop_eq]
    cases hl : v.ocsps with
    | nil => exact absurd hl hne
    | cons s rest => simp [List.isEmpty, List.all_eq_true]
  · show (ocspLoop env p7.onlySigner (findIssuer certs p7.onlySigner) v.ocsps).2 ++
      (crlLoop env p7.onlySigner certs v.clrs).2 = _
    rw [ocspLoop_eq, crlLoop_eq]
  · intro hcount
    have hpos : 0 < v.ocsps.countP
        (fun s => !(ocspOk env p7.onlySigner (findIssuer certs p7.onlySigner) s)) := by
      rw [hcount]; exact Nat.one_pos
    obtain ⟨sfail, hmem, hfail⟩ := List.countP_pos_iff.mp hpos
    have hfail' : ocspOk env p7.onlySigner (findIssuer certs p7.onlySigner) sfail
        = false := by
      cases h : ocspOk env p7.onlySigner (findIssuer certs p7.onlySigner) sfail
      · rfl
      · rw [h] at hfail; cases hfail
    constructor
    · show (ocspLoop env p7.onlySigner (findIssuer certs p7.onlySigner) v.ocsps).1
        = false
      rw [ocspLoop_eq]
      have : v.ocsps.all (ocspOk env p7.onlySigner (findIssuer certs p7.onlySigner))
          = false := all_eq_false_of_mem _ _ sfail hmem hfail'
      simp [this]
    · rw [ocspErrsOf_length, hcount]

/-- C4 witness: two OCSP responses, the second malformed: the flag is
false and the OCSP loop contributed exactly one error. -/
theorem c4_ocsp_all_must_validate_witness :
    (SignatureValidationResult.mk true true true true false false false
      ["ocsp: response parse failure"]).isVerifiedByOCSPs = false ∧
    (ocspErrsOf envC4 certW (findIssuer [] certW) vriC4.ocsps).length = 1 :=
  (c4_ocsp_all_must_validate envC4 {} sigW [0] (some readerC4) vriC4 (P7.mk certW) []
    (SignatureValidationResult.mk true true true true false false false
      ["ocsp: response parse failure"])
    (by rfl) (by rfl) (by rfl) (by decide) (by decide)).2.2 (by decide)

/-- C5: a revoked-certificate entry of a parsed CRL whose serial number
matches the signer's serial number (or any VRI certificate's serial
number) forces `IsVerifiedByCLRs` to false and appends a revocation
message naming the signer's serial number. -/
theorem c5_crl_revocation (env : Env) (a : EtsiPAdES) (sig : PdfSignature)
    (digest : Bytes) (r : Option PdfReader) (v : DSSCerts) (p7 : P7)
    (certs : List Certificate) (res : SignatureValidationResult)
    (s : PdfObjectStream) (clr : CRL) (rc : RevokedCertificate)
    (hvri : vriOf env sig r = some v)
    (hp7 : env.pkcs7Parse sig.contents = Except.ok p7)
    (hcerts : parseCerts env v.certs = Except.ok certs)
    (hres : ValidateEx env a sig digest r = Except.ok res)
    (hs : s ∈ v.clrs)
    (hclr : env.x509ParseCRL s.stream = Except.ok clr)
    (hrc : rc ∈ clr.revokedCertificates)
    (hmatch : rc.serialNumber = p7.onlySigner.serialNumber ∨
      ∃ c ∈ certs, rc.serialNumber = c.serialNumber) :
    res.isVerifiedByCLRs = false ∧
    revokedMessage p7.onlySigner.serialNumber ∈ res.errors := by
  cases hverify : env.p7Verify p7 digest with
  | error e => exact absurd hres (by simp [ValidateEx, hvri, hp7, hcerts, hverify])
  | ok u =>
  cases u
  rw [validateEx_ok_vri env a sig digest r v p7 certs hvri hp7 hcerts hverify] at hres
  have hr : res = _ := (Except.ok.inj hres).symm
  subst hr
  have hmsg : revokedMessage p7.onlySigner.serialNumber ∈
      crlErrsOfStream env p7.onlySigner certs s := by
    rw [crlErrsOfStream, hclr]
    exact mem_revokedErrsOf p7.onlySigner certs clr.revokedCertificates rc hrc hmatch
  have hok : crlOk env p7.onlySigner certs s = false := by
    rw [crlOk]
    cases hlist : crlErrsOfStream env p7.onlySigner certs s with
    | nil => rw [hlist] at hmsg; cases hmsg
    | cons x xs => rfl
  constructor
  · show (crlLoop env p7.onlySigner certs v.clrs).1 = false
    rw [crlLoop_eq]
    have : v.clrs.all (crlOk env p7.onlySigner certs) = false :=
      all_eq_false_of_mem _ _ s hs hok
    simp [this]
  · show revokedMessage p7.onlySigner.serialNumber ∈
      (ocspLoop env p7.onlySigner (findIssuer certs p7.onlySigner) v.ocsps).2 ++
        (crlLoop env p7.onlySigner certs v.clrs).2
    rw [crlLoop_eq]
    exact List.mem_append.mpr
      (Or.inr (mem_crlErrsOf env p7.onlySigner certs v.clrs s hs _ hmsg))

/-- C5 witness: one CRL listing the signer's serial number 11 as
revoked: the flag is false and the revocation message naming serial 11
is appended. -/
theorem c5_crl_revocation_witness :
    (SignatureValidationResult.mk true true true false false true false
      [revokedMessage certW.serialNumber]).isVerifiedByCLRs = false ∧
    revokedMessage certW.serialNumber ∈
      (SignatureValidationResult.mk true true true false false true false
        [revokedMessage certW.serialNumber]).errors :=
  c5_crl_revocation envC5 {} sigW [0] (some readerC5) vriC5 (P7.mk certW) []
    (SignatureValidationResult.mk true true true false false true false
      [revokedMessage certW.serialNumber])
    (PdfObjectStream.mk [5]) (CRL.mk [RevokedCertificate.mk 11])
    (RevokedCertificate.mk 11)
    (by rfl) (by rfl) (by rfl) (by decide) (by decide) (by rfl) (by decide)
    (Or.inl (by rfl))

end Pades
